import Mathlib

/-
Shallow embedding of the KannadaAI client core (App state machine,
word bank, badge evaluator, audio playback controller, tutor session
orchestrator, voice capture controller) together with proofs of the
specification's testable properties.

External collaborators (the remote inference service, the speech
synthesis service, the browser speech engines) are modelled as oracle
parameters: each call that awaits an external outcome takes that
outcome as an explicit argument.
-/

/-- Vocabulary item; identity key is the kannada field (types.ts, Word). -/
structure Word where
  kannada : String
  transliteration : String
  english : String
  category : Option String
deriving DecidableEq

/-- Badge metric selector (types.ts, Badge.type). -/
inductive BadgeType where
  | words
  | lessons
  | streak
deriving DecidableEq

/-- Achievement badge (types.ts, Badge). -/
structure Badge where
  id : String
  name : String
  icon : String
  description : String
  unlocked : Bool
  threshold : Nat
  type : BadgeType
deriving DecidableEq

/-- Learner progress ledger (types.ts, UserProgress). -/
structure UserProgress where
  points : Nat
  streak : Nat
  lessonsCompleted : Nat
  wordsLearned : Nat
  badges : List Badge
deriving DecidableEq

/-- Top-level application mode (types.ts, AppMode). -/
inductive AppMode where
  | onboarding
  | dashboard
  | conversation
  | lesson
deriving DecidableEq

/-- The App component's state: word bank, progress ledger, mode (App.tsx). -/
structure AppState where
  wordBank : List Word
  userProgress : UserProgress
  mode : AppMode
deriving DecidableEq

/-- The three startup badges (App.tsx, INITIAL_BADGES).  The Chatter badge
uses the streak type loosely for chat count, per the source comment. -/
def INITIAL_BADGES : List Badge :=
  [ { id := "1", name := "Rookie", icon := "🌱",
      description := "Learned first 10 words",
      unlocked := false, threshold := 10, type := BadgeType.words },
    { id := "2", name := "Chatter", icon := "🗣️",
      description := "Sent 10 messages",
      unlocked := false, threshold := 10, type := BadgeType.streak },
    { id := "3", name := "Scholar", icon := "🎓",
      description := "Completed 5 lessons",
      unlocked := false, threshold := 5, type := BadgeType.lessons } ]

/-- Initial App state (App.tsx useState initialisers). -/
def initialAppState : AppState :=
  { wordBank := []
    userProgress :=
      { points := 0, streak := 1, lessonsCompleted := 0, wordsLearned := 0
        badges := INITIAL_BADGES }
    mode := AppMode.onboarding }

/-- Per-badge body of the map inside checkBadges (App.tsx).  A locked badge
unlocks when the metric selected by its type reaches its threshold; the
streak type is not driven by word or lesson events. -/
def checkBadgeStep (currentProgress : UserProgress) (badge : Badge) : Badge :=
  if badge.unlocked then badge
  else if (badge.type = BadgeType.words ∧ badge.threshold ≤ currentProgress.wordsLearned)
      ∨ (badge.type = BadgeType.lessons ∧ badge.threshold ≤ currentProgress.lessonsCompleted)
  then { badge with unlocked := true }
  else badge

/-- Badge evaluation (App.tsx, checkBadges): map the step over the badges. -/
def checkBadges (currentProgress : UserProgress) : List Badge :=
  currentProgress.badges.map (checkBadgeStep currentProgress)

/-- The accepted subset of a candidate batch: candidates whose kannada key
is not already present in the bank (the filter inside handleUpdateWordBank). -/
def acceptedWords (bank : List Word) (newWords : List Word) : List Word :=
  let existing := bank.map Word.kannada
  newWords.filter (fun w => !(existing.contains w.kannada))

/-- Word Bank add operation (App.tsx, handleUpdateWordBank): prepend the
accepted candidates, and when any were accepted bump wordsLearned and
re-evaluate badges. -/
def handleUpdateWordBank (s : AppState) (newWords : List Word) : AppState :=
  let filtered := acceptedWords s.wordBank newWords
  let updated := filtered ++ s.wordBank
  let newProgress :=
    if filtered.length > 0 then
      let np := { s.userProgress with
                    wordsLearned := s.userProgress.wordsLearned + filtered.length }
      { np with badges := checkBadges np }
    else s.userProgress
  { s with wordBank := updated, userProgress := newProgress }

/-- Lesson completion (App.tsx, handleLessonComplete): +1 lesson, +50
points, badge re-evaluation, return to the dashboard. -/
def handleLessonComplete (s : AppState) : AppState :=
  let nextLessons := s.userProgress.lessonsCompleted + 1
  let np := { s.userProgress with
                points := s.userProgress.points + 50
                lessonsCompleted := nextLessons }
  let np2 := { np with badges := checkBadges np }
  { s with userProgress := np2, mode := AppMode.dashboard }

/-- The ledger-mutating operations of the App component. -/
inductive Op where
  | updateWordBank (newWords : List Word)
  | lessonComplete
deriving DecidableEq

/-- Dispatch one operation. -/
def applyOp (s : AppState) : Op → AppState
  | Op.updateWordBank ws => handleUpdateWordBank s ws
  | Op.lessonComplete => handleLessonComplete s

/-- Apply a sequence of operations in order. -/
def applyOps (s : AppState) (ops : List Op) : AppState :=
  ops.foldl applyOp s

/-- Apply a sequence of Word Bank add calls in order. -/
def applyBatches (s : AppState) : List (List Word) → AppState
  | [] => s
  | ws :: rest => applyBatches (handleUpdateWordBank s ws) rest

/-- Total number of candidates accepted over a sequence of add calls. -/
def totalAccepted (s : AppState) : List (List Word) → Nat
  | [] => 0
  | ws :: rest =>
      (acceptedWords s.wordBank ws).length
        + totalAccepted (handleUpdateWordBank s ws) rest

/-- Character-level lower-casing as performed by toLowerCase on the
strings this client handles (ASCII letters; Kannada script has no case). -/
def charToLower (c : Char) : Char :=
  if 65 ≤ c.toNat ∧ c.toNat ≤ 90 then Char.ofNat (c.toNat + 32) else c

/-- Character-level upper-casing (ASCII letters). -/
def charToUpper (c : Char) : Char :=
  if 97 ≤ c.toNat ∧ c.toNat ≤ 122 then Char.ofNat (c.toNat - 32) else c

/-- Lower-cased character sequence of a string. -/
def lowerStr (s : String) : List Char :=
  s.data.map charToLower

/-- Whitespace as trimmed from string ends by trim. -/
def isWhitespaceChar (c : Char) : Bool :=
  c.toNat == 32 || c.toNat == 9 || c.toNat == 10 || c.toNat == 11
    || c.toNat == 12 || c.toNat == 13

/-- Strip leading and trailing whitespace from a character sequence. -/
def trimChars (l : List Char) : List Char :=
  ((l.dropWhile isWhitespaceChar).reverse.dropWhile isWhitespaceChar).reverse

/-- The trim operation on strings used by the orchestrator. -/
def jsTrim (s : String) : String :=
  (trimChars s.data).asString

/-- Substring containment, the semantics of includes. -/
def listContains (hay needle : List Char) : Bool :=
  (List.range (hay.length + 1)).any (fun i => needle.isPrefixOf (hay.drop i))

/-- Markdown symbols stripped by the first replace in cleanTextForTTS:
asterisk (42), underscore (95), backquote (96), tilde (126). -/
def isMarkdownSym (c : Char) : Bool :=
  c.toNat == 42 || c.toNat == 95 || c.toNat == 96 || c.toNat == 126

/-- Brace and bracket symbols stripped by the second replace in
cleanTextForTTS: the six ASCII brace, square-bracket and paren symbols. -/
def isBracketSym (c : Char) : Bool :=
  c.toNat == 123 || c.toNat == 125 || c.toNat == 91 || c.toNat == 93
    || c.toNat == 40 || c.toNat == 41

/-- Emoji code-point ranges stripped by the third replace in cleanTextForTTS. -/
def isEmojiSym (c : Char) : Bool :=
  (decide (0x1F600 ≤ c.toNat) && decide (c.toNat ≤ 0x1F64F))
    || (decide (0x1F300 ≤ c.toNat) && decide (c.toNat ≤ 0x1F5FF))
    || (decide (0x1F680 ≤ c.toNat) && decide (c.toNat ≤ 0x1F6FF))
    || (decide (0x1F1E0 ≤ c.toNat) && decide (c.toNat ≤ 0x1F1FF))

/-- Normalisation before speech synthesis (geminiService, cleanTextForTTS):
strip markdown punctuation, brackets and emoji ranges, then trim. -/
def cleanTextForTTS (text : String) : String :=
  if text = "" then text
  else
    let cleaned1 := text.data.filter (fun c => !(isMarkdownSym c))
    let cleaned2 := cleaned1.filter (fun c => !(isBracketSym c))
    let cleaned3 := cleaned2.filter (fun c => !(isEmojiSym c))
    (trimChars cleaned3).asString

/-- Whether a string contains a character of the Kannada script block
(the regex test over 0C80-0CFF). -/
def containsKannadaChar (s : String) : Bool :=
  s.data.any (fun c => decide (0xC80 ≤ c.toNat) && decide (c.toNat ≤ 0xCFF))

/-- Audio playback controller state (geminiService module-level variables).
The one live AudioContext and AudioBufferSourceNode are modelled as numeric
handles drawn from the fresh counter; released collects every handle the
controller has released; synthRequests counts remote synthesis attempts;
browserQueue models utterances handed to the on-device speech engine. -/
structure AudioState where
  ctx : Option Nat
  src : Option Nat
  released : List Nat
  fresh : Nat
  synthRequests : Nat
  browserQueue : List String
deriving DecidableEq

/-- Stop playback (geminiService, stopAudio): stop and drop the source,
close and drop the context, cancel on-device speech.  Both held handles,
when present, are released. -/
def stopAudio (s : AudioState) : AudioState :=
  { s with src := none, ctx := none,
           released := s.released ++ s.src.toList ++ s.ctx.toList,
           browserQueue := [] }

/-- On-device fallback (geminiService, speakWithBrowser): queue the
utterance on the browser speech engine. -/
def speakWithBrowser (text : String) (s : AudioState) : AudioState :=
  { s with browserQueue := s.browserQueue ++ [text] }

/-- Play synthesized speech (geminiService, playAudio).  synthOk is the
oracle outcome of the remote synthesis pipeline (request, audio payload
present, decode): when it fails the controller falls back to on-device
speech.  Short non-Kannada fragments skip the remote request entirely. -/
def playAudio (text : String) (synthOk : Bool) (s : AudioState) : AudioState :=
  let s1 := stopAudio s
  let cleanText := cleanTextForTTS text
  if cleanText = "" then s1
  else if cleanText.length < 3 ∧ containsKannadaChar cleanText = false then
    speakWithBrowser cleanText s1
  else
    let s2 := { s1 with synthRequests := s1.synthRequests + 1 }
    if synthOk then
      { s2 with ctx := some s2.fresh, src := some (s2.fresh + 1),
                fresh := s2.fresh + 2 }
    else
      speakWithBrowser cleanText s2

/-- All handles a state knows about are below its fresh counter. -/
def audioWF (s : AudioState) : Prop :=
  (∀ h ∈ s.src.toList, h < s.fresh)
    ∧ (∀ h ∈ s.ctx.toList, h < s.fresh)
    ∧ (∀ h ∈ s.released, h < s.fresh)

/-- Message author (types.ts, Message.role). -/
inductive Role where
  | user
  | model
deriving DecidableEq

/-- Transcript entry (types.ts, Message). -/
structure Message where
  id : String
  role : Role
  text : String
  vocabulary : Option (List Word)
  translation : Option String
deriving DecidableEq

/-- Parsed chat inference payload (geminiService, chatWithTutor result). -/
structure ChatResponse where
  reply : String
  translation : String
  nextQuestion : String
  vocabulary : List Word
deriving DecidableEq

/-- The canned apology payload substituted by the catch block of
chatWithTutor. -/
def chatFallback : ChatResponse :=
  { reply := "Kshamisi, connectivity problem."
    translation := "Sorry, connectivity problem."
    nextQuestion := "Can you repeat that?"
    vocabulary := [] }

/-- Chat request (geminiService, chatWithTutor).  remote is the oracle
outcome of the inference request plus JSON parse; on any failure the
catch block returns the canned fallback payload instead of throwing. -/
def chatWithTutor (remote : Except Unit ChatResponse) : ChatResponse :=
  match remote with
  | Except.ok r => r
  | Except.error _ => chatFallback

/-- Chat view state (ChatInterface.tsx). -/
structure ChatState where
  messages : List Message
  isProcessing : Bool
deriving DecidableEq

/-- Combined state touched by the conversation orchestrator. -/
structure SessionState where
  app : AppState
  chat : ChatState
  audio : AudioState
deriving DecidableEq

/-- Conversation flow on a finalized transcript (ChatInterface.tsx,
handleVoiceResult): append the user message, mark processing, run the
chat request, append the model message, forward any vocabulary to the
word bank, trigger playback of reply plus follow-up, clear processing.
now models the clock used for message ids; synthOk is the synthesis
oracle for the triggered playback. -/
def handleVoiceResult (transcript : String) (now : Nat)
    (remote : Except Unit ChatResponse) (synthOk : Bool)
    (s : SessionState) : SessionState :=
  if jsTrim transcript = "" then s
  else
    let newUserMsg : Message :=
      { id := toString now, role := Role.user, text := transcript
        vocabulary := none, translation := none }
    let chat1 := { s.chat with messages := s.chat.messages ++ [newUserMsg]
                               isProcessing := true }
    let response := chatWithTutor remote
    let newModelMsg : Message :=
      { id := toString (now + 1), role := Role.model, text := response.reply
        vocabulary := some response.vocabulary
        translation := some response.translation }
    let chat2 := { chat1 with messages := chat1.messages ++ [newModelMsg] }
    let app2 :=
      if response.vocabulary.length > 0 then
        handleUpdateWordBank s.app response.vocabulary
      else s.app
    let audio2 :=
      playAudio (response.reply ++ " " ++ response.nextQuestion) synthOk s.audio
    { app := app2, chat := { chat2 with isProcessing := false }, audio := audio2 }

/-- The literal TRUE token looked for in the validation reply. -/
def trueToken : List Char :=
  [Char.ofNat 84, Char.ofNat 82, Char.ofNat 85, Char.ofNat 69]

/-- Quiz answer validation (geminiService, validateAnswer).  First a local
case-insensitive containment check; only if it fails, the remote
semantic-equivalence oracle is consulted (ok with the optional reply text,
or error when the request throws, which defaults to false).  Returns the
verdict paired with whether the remote call was issued. -/
def validateAnswer (userAnswer correctAnswer : String)
    (remote : Except Unit (Option String)) : Bool × Bool :=
  if listContains (lowerStr userAnswer) (lowerStr correctAnswer) then
    (true, false)
  else
    match remote with
    | Except.ok txt =>
        ((txt.map (fun s => listContains ((trimChars s.data).map charToUpper) trueToken)).getD false,
         true)
    | Except.error _ => (false, true)

/-- Voice capture controller state (VoiceControl.tsx): the isListening
flag, whether a recognizer instance exists, whether the underlying engine
session is active, and how many engine sessions were ever begun. -/
structure VoiceState where
  isListening : Bool
  hasRecognizer : Bool
  engineStarted : Bool
  startCalls : Nat
deriving DecidableEq

/-- Start request (VoiceControl.tsx, startListening): preempt playback,
then, guarded on the isListening flag, start the engine; a concurrent
already-started engine raises InvalidStateError which is swallowed. -/
def startListening (v : VoiceState) (a : AudioState) : VoiceState × AudioState :=
  let a2 := stopAudio a
  if v.hasRecognizer then
    if v.isListening then (v, a2)
    else if v.engineStarted then ({ v with isListening := true }, a2)
    else ({ v with isListening := true, engineStarted := true
                   startCalls := v.startCalls + 1 }, a2)
  else (v, a2)

/-- Stop request (VoiceControl.tsx, stopListening): ask the engine to
stop; errors are swallowed.  The isListening flag itself is only cleared
later by the engine's end callback. -/
def stopListening (v : VoiceState) : VoiceState :=
  if v.hasRecognizer then { v with engineStarted := false } else v

/-- Pointwise relation preserved by every badge-list update: type is kept,
an unlocked badge stays unlocked, and a locked streak badge stays locked. -/
def badgeRel (b1 b2 : Badge) : Prop :=
  b2.type = b1.type
    ∧ (b1.unlocked = true → b2.unlocked = true)
    ∧ (b1.type = BadgeType.streak → b1.unlocked = false → b2.unlocked = false)

theorem badgeRel_refl (b : Badge) : badgeRel b b :=
  ⟨rfl, fun h => h, fun _ h => h⟩

theorem badgeRel_trans {b1 b2 b3 : Badge} (h12 : badgeRel b1 b2)
    (h23 : badgeRel b2 b3) : badgeRel b1 b3 := by
  obtain ⟨t12, u12, s12⟩ := h12
  obtain ⟨t23, u23, s23⟩ := h23
  refine ⟨t23.trans t12, fun h => u23 (u12 h), fun hs hl => ?_⟩
  exact s23 (t12.trans hs) (s12 hs hl)

theorem forall₂_badgeRel_trans {l1 l2 l3 : List Badge}
    (h12 : List.Forall₂ badgeRel l1 l2) (h23 : List.Forall₂ badgeRel l2 l3) :
    List.Forall₂ badgeRel l1 l3 := by
  induction h12 generalizing l3 with
  | nil =>
      cases h23
      exact List.Forall₂.nil
  | cons hab htl ih =>
      cases h23 with
      | cons hbc htl2 => exact List.Forall₂.cons (badgeRel_trans hab hbc) (ih htl2)

theorem badgeRel_checkBadgeStep (p : UserProgress) (b : Badge) :
    badgeRel b (checkBadgeStep p b) := by
  unfold checkBadgeStep
  split
  · exact badgeRel_refl b
  · split
    · next hu hc =>
        refine ⟨rfl, fun h => rfl, fun hs _ => ?_⟩
        rcases hc with ⟨hw, _⟩ | ⟨hw, _⟩ <;> rw [hs] at hw <;> cases hw
    · exact badgeRel_refl b

theorem forall₂_badgeRel_refl (l : List Badge) : List.Forall₂ badgeRel l l := by
  rw [List.forall₂_same]
  intro b _
  exact badgeRel_refl b

theorem forall₂_badgeRel_checkBadges (p : UserProgress) (l : List Badge)
    (hl : p.badges = l) : List.Forall₂ badgeRel l (checkBadges p) := by
  subst hl
  unfold checkBadges
  rw [List.forall₂_map_right_iff, List.forall₂_same]
  intro b _
  exact badgeRel_checkBadgeStep p b

theorem forall₂_badgeRel_applyOp (s : AppState) (op : Op) :
    List.Forall₂ badgeRel s.userProgress.badges (applyOp s op).userProgress.badges := by
  cases op with
  | updateWordBank ws =>
      simp only [applyOp, handleUpdateWordBank]
      split
      · exact forall₂_badgeRel_checkBadges _ _ rfl
      · exact forall₂_badgeRel_refl _
  | lessonComplete =>
      simp only [applyOp, handleLessonComplete]
      exact forall₂_badgeRel_checkBadges _ _ rfl

theorem forall₂_badgeRel_applyOps (ops : List Op) (s : AppState) :
    List.Forall₂ badgeRel s.userProgress.badges (applyOps s ops).userProgress.badges := by
  induction ops generalizing s with
  | nil =>
      simp only [applyOps, List.foldl_nil]
      exact forall₂_badgeRel_refl _
  | cons op rest ih =>
      simp only [applyOps, List.foldl_cons]
      exact forall₂_badgeRel_trans (forall₂_badgeRel_applyOp s op)
        (ih (applyOp s op))

theorem checkBadgeStep_congr (p : UserProgress) (l : List Badge) :
    checkBadgeStep { p with badges := l } = checkBadgeStep p := rfl

theorem checkBadgeStep_idem (p : UserProgress) (b : Badge) :
    checkBadgeStep p (checkBadgeStep p b) = checkBadgeStep p b := by
  unfold checkBadgeStep
  split
  · next hu => simp [hu]
  · next hu =>
      split
      · next hc => simp
      · next hc => simp [hu, hc]

/-- Claim C5: badge unlocking is monotone.  For every starting state and
every sequence of ledger updates (word additions and lesson completions,
each re-evaluating badges), each badge that is unlocked before the
sequence is still unlocked after it (the lists correspond pointwise). -/
theorem badges_unlock_monotone (ops : List Op) (s : AppState) :
    List.Forall₂ (fun b1 b2 => b1.unlocked = true → b2.unlocked = true)
      s.userProgress.badges (applyOps s ops).userProgress.badges := by
  refine List.Forall₂.imp ?_ (forall₂_badgeRel_applyOps ops s)
  intro b1 b2 hr
  exact hr.2.1

/-- Witness for C5 at a concrete unlocked badge and operation sequence. -/
theorem badges_unlock_monotone_witness :
    List.Forall₂ (fun b1 b2 => b1.unlocked = true → b2.unlocked = true)
      initialAppState.userProgress.badges
      (applyOps initialAppState [Op.lessonComplete]).userProgress.badges :=
  badges_unlock_monotone [Op.lessonComplete] initialAppState

/-- Claim C6: badge evaluation is idempotent.  Feeding the badge list
produced by one run of checkBadges back into a second run over the same
ledger counters yields the same list again. -/
theorem checkBadges_idempotent (p : UserProgress) :
    checkBadges { p with badges := checkBadges p } = checkBadges p := by
  show List.map _ _ = _
  rw [checkBadgeStep_congr]
  show List.map (checkBadgeStep p) (List.map (checkBadgeStep p) p.badges) = _
  rw [List.map_map]
  exact List.map_congr_left (fun b _ => checkBadgeStep_idem p b)

/-- Claim C7: a locked badge is unlocked by evaluation iff the ledger
metric selected by its type reaches its threshold (wordsLearned for the
words type, lessonsCompleted for the lessons type), and a locked
streak-type badge remains locked after every sequence of word additions
and lesson completions. -/
theorem badge_unlock_iff_metric (p : UserProgress) (b : Badge)
    (hb : b.unlocked = false) (ops : List Op) (s : AppState) :
    ((checkBadgeStep p b).unlocked = true ↔
      (b.type = BadgeType.words ∧ b.threshold ≤ p.wordsLearned)
        ∨ (b.type = BadgeType.lessons ∧ b.threshold ≤ p.lessonsCompleted)) ∧
    List.Forall₂
      (fun b1 b2 => b1.type = BadgeType.streak → b1.unlocked = false →
        b2.unlocked = false)
      s.userProgress.badges (applyOps s ops).userProgress.badges := by
  constructor
  · unfold checkBadgeStep
    rw [if_neg (by simp [hb])]
    split
    · next hc => simpa using hc
    · next hc => simpa [hb] using hc
  · refine List.Forall₂.imp ?_ (forall₂_badgeRel_applyOps ops s)
    intro b1 b2 hr
    exact hr.2.2

/-- Witness for C7: the locked Rookie badge unlocks at 10 learned words
and not at 9, and the streak-type Chatter badge stays locked across a
concrete operation sequence. -/
theorem badge_unlock_iff_metric_witness :
    ({ id := "1", name := "Rookie", icon := "🌱",
       description := "Learned first 10 words",
       unlocked := false, threshold := 10, type := BadgeType.words : Badge }.unlocked = false) ∧
    ((checkBadgeStep
        { points := 0, streak := 1, lessonsCompleted := 0, wordsLearned := 10
          badges := INITIAL_BADGES }
        { id := "1", name := "Rookie", icon := "🌱",
          description := "Learned first 10 words",
          unlocked := false, threshold := 10, type := BadgeType.words }).unlocked = true ↔
      ({ id := "1", name := "Rookie", icon := "🌱",
         description := "Learned first 10 words",
         unlocked := false, threshold := 10, type := BadgeType.words : Badge }.type = BadgeType.words
          ∧ ({ id := "1", name := "Rookie", icon := "🌱",
               description := "Learned first 10 words",
               unlocked := false, threshold := 10, type := BadgeType.words : Badge }.threshold ≤ 10))
        ∨ ({ id := "1", name := "Rookie", icon := "🌱",
             description := "Learned first 10 words",
             unlocked := false, threshold := 10, type := BadgeType.words : Badge }.type = BadgeType.lessons
          ∧ ({ id := "1", name := "Rookie", icon := "🌱",
               description := "Learned first 10 words",
               unlocked := false, threshold := 10, type := BadgeType.words : Badge }.threshold ≤ 0))) ∧
    List.Forall₂
      (fun b1 b2 => b1.type = BadgeType.streak → b1.unlocked = false →
        b2.unlocked = false)
      initialAppState.userProgress.badges
      (applyOps initialAppState [Op.lessonComplete]).userProgress.badges := by
  refine ⟨rfl, ?_, ?_⟩
  · exact (badge_unlock_iff_metric
      { points := 0, streak := 1, lessonsCompleted := 0, wordsLearned := 10
        badges := INITIAL_BADGES }
      { id := "1", name := "Rookie", icon := "🌱",
        description := "Learned first 10 words",
        unlocked := false, threshold := 10, type := BadgeType.words }
      rfl [Op.lessonComplete] initialAppState).1
  · exact (badge_unlock_iff_metric
      { points := 0, streak := 1, lessonsCompleted := 0, wordsLearned := 10
        badges := INITIAL_BADGES }
      { id := "1", name := "Rookie", icon := "🌱",
        description := "Learned first 10 words",
        unlocked := false, threshold := 10, type := BadgeType.words }
      rfl [Op.lessonComplete] initialAppState).2

theorem handleLessonComplete_lessons (s : AppState) :
    (handleLessonComplete s).userProgress.lessonsCompleted
      = s.userProgress.lessonsCompleted + 1 := rfl

theorem handleLessonComplete_points (s : AppState) :
    (handleLessonComplete s).userProgress.points
      = s.userProgress.points + 50 := rfl

/-- Claim C4: N lesson completions increase lessonsCompleted by exactly N
and points by exactly 50 times N, and no operation (word addition or
lesson completion) ever decreases points. -/
theorem lessonComplete_counts_points (N : Nat) (s : AppState) :
    ((handleLessonComplete^[N] s).userProgress.lessonsCompleted
        = s.userProgress.lessonsCompleted + N) ∧
    ((handleLessonComplete^[N] s).userProgress.points
        = s.userProgress.points + 50 * N) ∧
    (∀ (t : AppState) (op : Op),
        t.userProgress.points ≤ (applyOp t op).userProgress.points) := by
  refine ⟨?_, ?_, ?_⟩
  · induction N with
    | zero => simp
    | succ n ih =>
        rw [Function.iterate_succ_apply', handleLessonComplete_lessons, ih]
        omega
  · induction N with
    | zero => simp
    | succ n ih =>
        rw [Function.iterate_succ_apply', handleLessonComplete_points, ih]
        ring
  · intro t op
    cases op with
    | updateWordBank ws =>
        simp only [applyOp, handleUpdateWordBank]
        split
        · exact Nat.le_refl _
        · exact Nat.le_refl _
    | lessonComplete =>
        show t.userProgress.points ≤ (handleLessonComplete t).userProgress.points
        rw [handleLessonComplete_points]
        exact Nat.le_add_right _ _

theorem acceptedWords_mem (bank ws : List Word) (w : Word) (hw : w ∈ ws) :
    w ∈ acceptedWords bank ws ↔ ∀ v ∈ bank, v.kannada ≠ w.kannada := by
  unfold acceptedWords
  rw [List.mem_filter]
  simp only [hw, true_and]
  simp [List.mem_map]

theorem handleUpdateWordBank_wordBank (s : AppState) (ws : List Word) :
    (handleUpdateWordBank s ws).wordBank = acceptedWords s.wordBank ws ++ s.wordBank := rfl

theorem handleUpdateWordBank_wordsLearned (s : AppState) (ws : List Word) :
    (handleUpdateWordBank s ws).userProgress.wordsLearned
      = s.userProgress.wordsLearned + (acceptedWords s.wordBank ws).length := by
  unfold handleUpdateWordBank
  dsimp only
  split
  · rfl
  · next h => omega

theorem acceptedWords_key_nodup (bank ws : List Word)
    (hw : (ws.map Word.kannada).Nodup) :
    ((acceptedWords bank ws).map Word.kannada).Nodup := by
  have hsub : List.Sublist ((acceptedWords bank ws).map Word.kannada) (ws.map Word.kannada) :=
    List.Sublist.map Word.kannada (List.filter_sublist ws)
  exact hw.sublist hsub

theorem acceptedWords_key_not_in_bank (bank ws : List Word) (w : Word)
    (hw : w ∈ acceptedWords bank ws) : w.kannada ∉ bank.map Word.kannada := by
  unfold acceptedWords at hw
  rw [List.mem_filter] at hw
  have h := hw.2
  simpa using h

theorem handleUpdateWordBank_nodup (s : AppState) (ws : List Word)
    (hs : (s.wordBank.map Word.kannada).Nodup)
    (hw : (ws.map Word.kannada).Nodup) :
    ((handleUpdateWordBank s ws).wordBank.map Word.kannada).Nodup := by
  rw [handleUpdateWordBank_wordBank, List.map_append, List.nodup_append]
  refine ⟨acceptedWords_key_nodup s.wordBank ws hw, hs, ?_⟩
  intro k hk1 hk2
  rw [List.mem_map] at hk1
  obtain ⟨w, hw1, hw2⟩ := hk1
  exact acceptedWords_key_not_in_bank s.wordBank ws w hw1 (hw2 ▸ hk2)

theorem applyBatches_wordsLearned (bs : List (List Word)) (s : AppState) :
    (applyBatches s bs).userProgress.wordsLearned
      = s.userProgress.wordsLearned + totalAccepted s bs := by
  induction bs generalizing s with
  | nil => simp [applyBatches, totalAccepted]
  | cons ws rest ih =>
      simp only [applyBatches, totalAccepted]
      rw [ih, handleUpdateWordBank_wordsLearned]
      omega

theorem applyBatches_nodup (bs : List (List Word)) (s : AppState)
    (hs : (s.wordBank.map Word.kannada).Nodup)
    (hbs : ∀ b ∈ bs, (b.map Word.kannada).Nodup) :
    ((applyBatches s bs).wordBank.map Word.kannada).Nodup := by
  induction bs generalizing s with
  | nil => exact hs
  | cons ws rest ih =>
      simp only [applyBatches]
      refine ih (handleUpdateWordBank s ws)
        (handleUpdateWordBank_nodup s ws hs (hbs ws (List.mem_cons_self ws rest)))
        (fun b hb => hbs b (List.mem_cons_of_mem ws hb))

/-- Claim C1 (amended): over every sequence of Word Bank add calls from
the initial state in which each call's candidate list has pairwise
distinct kannada keys, no two bank entries share a kannada value, a
candidate is accepted iff no entry of the bank at the time of the call
shares its kannada value, and wordsLearned equals the total number of
ever-accepted words.  (Duplicates inside a single candidate list are all
accepted, which is what forces the distinctness hypothesis.) -/
theorem wordBank_dedup_accept_count (bs : List (List Word))
    (hbs : ∀ b ∈ bs, (b.map Word.kannada).Nodup) :
    (((applyBatches initialAppState bs).wordBank.map Word.kannada).Nodup) ∧
    ((applyBatches initialAppState bs).userProgress.wordsLearned
        = totalAccepted initialAppState bs) ∧
    (∀ (bank ws : List Word) (w : Word), w ∈ ws →
        (w ∈ acceptedWords bank ws ↔ ∀ v ∈ bank, v.kannada ≠ w.kannada)) := by
  refine ⟨applyBatches_nodup bs initialAppState (by simp [initialAppState]) hbs, ?_, ?_⟩
  · rw [applyBatches_wordsLearned]
    simp [initialAppState]
  · exact acceptedWords_mem

/-- A concrete vocabulary item. -/
def wordYes : Word :=
  { kannada := "ಹೌದು", transliteration := "haudu", english := "yes"
    category := none }

/-- A second concrete vocabulary item with a different kannada key. -/
def wordHello : Word :=
  { kannada := "ನಮಸ್ಕಾರ", transliteration := "namaskara", english := "hello"
    category := none }

/-- Counterexample to claim C1 as stated: a single add call whose
candidate list repeats one word puts two entries with the same kannada
value into the bank, because each candidate is filtered only against the
entries that existed before the call. -/
theorem wordBank_intrabatch_dup_counterexample :
    ¬(((applyBatches initialAppState [[wordYes, wordYes]]).wordBank.map
        Word.kannada).Nodup) := by decide

/-- Witness for C1 (amended) at a concrete sequence: the same word
re-delivered in a later call is rejected, and wordsLearned counts each
accepted word once. -/
theorem wordBank_dedup_accept_count_witness :
    (∀ b ∈ [[wordYes], [wordYes, wordHello]], (b.map Word.kannada).Nodup) ∧
    ((((applyBatches initialAppState [[wordYes], [wordYes, wordHello]]).wordBank.map
        Word.kannada).Nodup) ∧
     ((applyBatches initialAppState [[wordYes], [wordYes, wordHello]]).userProgress.wordsLearned
        = totalAccepted initialAppState [[wordYes], [wordYes, wordHello]]) ∧
     (∀ (bank ws : List Word) (w : Word), w ∈ ws →
        (w ∈ acceptedWords bank ws ↔ ∀ v ∈ bank, v.kannada ≠ w.kannada))) :=
  ⟨by decide, wordBank_dedup_accept_count [[wordYes], [wordYes, wordHello]] (by decide)⟩

theorem stopAudio_fields (u : AudioState) :
    (stopAudio u).src = none ∧ (stopAudio u).ctx = none
      ∧ (stopAudio u).fresh = u.fresh
      ∧ (stopAudio u).synthRequests = u.synthRequests := by
  exact ⟨rfl, rfl, rfl, rfl⟩

theorem playAudio_released_eq (t : String) (r : Bool) (u : AudioState) :
    (playAudio t r u).released = (stopAudio u).released := by
  unfold playAudio
  dsimp only
  split
  · rfl
  · split
    · rfl
    · split
      · rfl
      · rfl

theorem stopAudio_mem_released_src (u : AudioState) (h : Nat)
    (hs : u.src = some h) : h ∈ (stopAudio u).released := by
  simp [stopAudio, hs]

theorem stopAudio_mem_released_ctx (u : AudioState) (h : Nat)
    (hs : u.ctx = some h) : h ∈ (stopAudio u).released := by
  simp [stopAudio, hs]

theorem playAudio_releases_src (t : String) (r : Bool) (u : AudioState)
    (h : Nat) (hs : u.src = some h) : h ∈ (playAudio t r u).released := by
  rw [playAudio_released_eq]
  exact stopAudio_mem_released_src u h hs

theorem playAudio_releases_ctx (t : String) (r : Bool) (u : AudioState)
    (h : Nat) (hs : u.ctx = some h) : h ∈ (playAudio t r u).released := by
  rw [playAudio_released_eq]
  exact stopAudio_mem_released_ctx u h hs

theorem audioWF_stopAudio (u : AudioState) (hw : audioWF u) :
    audioWF (stopAudio u) := by
  obtain ⟨h1, h2, h3⟩ := hw
  refine ⟨?_, ?_, ?_⟩
  · intro h hh
    simp [stopAudio] at hh
  · intro h hh
    simp [stopAudio] at hh
  · intro h hh
    simp only [stopAudio, List.mem_append] at hh
    rcases hh with (hh | hh) | hh
    · exact h3 h hh
    · exact h1 h hh
    · exact h2 h hh

theorem audioWF_playAudio (t : String) (r : Bool) (u : AudioState)
    (hw : audioWF u) : audioWF (playAudio t r u) := by
  have hstop := audioWF_stopAudio u hw
  unfold playAudio
  dsimp only
  split
  · exact hstop
  · split
    · obtain ⟨h1, h2, h3⟩ := hstop
      exact ⟨h1, h2, h3⟩
    · split
      · obtain ⟨h1, h2, h3⟩ := hstop
        refine ⟨?_, ?_, ?_⟩
        · intro h hh
          simp at hh ⊢
          omega
        · intro h hh
          simp at hh ⊢
          omega
        · intro h hh
          simp only at hh
          have := h3 h hh
          simp only
          omega
      · obtain ⟨h1, h2, h3⟩ := hstop
        exact ⟨h1, h2, h3⟩

theorem playAudio_success_fields (t : String) (u : AudioState)
    (h1 : cleanTextForTTS t ≠ "")
    (h2 : ¬((cleanTextForTTS t).length < 3
              ∧ containsKannadaChar (cleanTextForTTS t) = false)) :
    (playAudio t true u).src = some (u.fresh + 1)
      ∧ (playAudio t true u).ctx = some u.fresh
      ∧ (playAudio t true u).fresh = u.fresh + 2
      ∧ (playAudio t true u).released = (stopAudio u).released := by
  unfold playAudio
  dsimp only
  rw [if_neg h1, if_neg h2, if_pos rfl]
  exact ⟨rfl, rfl, rfl, rfl⟩

/-- Claim C3 (amended): when the input text normalises to the empty
string, playAudio makes no synthesis request, queues no fallback speech,
and acquires nothing; its only effect is the initial stop of any current
playback (it equals stopAudio on the state), so from an idle audio state
it is a no-op. -/
theorem playAudio_emptyClean_stops_only (text : String) (r : Bool)
    (s : AudioState) (h : cleanTextForTTS text = "") :
    playAudio text r s = stopAudio s ∧
    (playAudio text r s).synthRequests = s.synthRequests ∧
    (s.src = none → s.ctx = none → s.browserQueue = [] →
      playAudio text r s = s) := by
  have heq : playAudio text r s = stopAudio s := by
    unfold playAudio
    dsimp only
    rw [if_pos h]
  refine ⟨heq, by simp [heq, stopAudio], ?_⟩
  intro h1 h2 h3
  rw [heq]
  cases s
  simp_all [stopAudio]

/-- The idle audio state before any playback. -/
def audioState0' : AudioState :=
  { ctx := none, src := none, released := [], fresh := 0
    synthRequests := 0, browserQueue := [] }

/-- A state in which audio is currently playing. -/
def audioBusy : AudioState :=
  { ctx := some 0, src := some 1, released := [], fresh := 2
    synthRequests := 0, browserQueue := [] }

/-- Counterexample to claim C3 as stated: on input that normalises to the
empty string, playAudio is not a no-op on the playback state, because it
stops the current playback before the emptiness check. -/
theorem playAudio_emptyClean_counterexample :
    cleanTextForTTS ("***") = ""
      ∧ playAudio ("***") true audioBusy ≠ audioBusy := by decide

/-- Witness for C3 at a concrete emoji-and-markdown-only input. -/
theorem playAudio_emptyClean_stops_only_witness :
    cleanTextForTTS ("***") = "" ∧
    (playAudio ("***") true audioBusy = stopAudio audioBusy ∧
     (playAudio ("***") true audioBusy).synthRequests = audioBusy.synthRequests ∧
     (audioBusy.src = none → audioBusy.ctx = none → audioBusy.browserQueue = [] →
       playAudio ("***") true audioBusy = audioBusy)) :=
  ⟨by decide, playAudio_emptyClean_stops_only ("***") true audioBusy (by decide)⟩

/-- Claim C8: the audio playback controller is a single-slot resource.
Every play call releases the previously held source and context handles,
and after play of A followed by a successfully synthesised play of B the
controller holds exactly B's freshly acquired source handle, unreleased,
while A's source handle (when A acquired one) is in the released set and
differs from the active one.  (At most one playback can be active at any
time because the controller state holds at most one source handle.) -/
theorem playAudio_single_slot (s : AudioState) (A B : String) (rA : Bool)
    (hwf : audioWF s)
    (hB1 : cleanTextForTTS B ≠ "")
    (hB2 : ¬((cleanTextForTTS B).length < 3
              ∧ containsKannadaChar (cleanTextForTTS B) = false)) :
    (∀ (t : String) (r : Bool) (u : AudioState) (h : Nat),
        u.src = some h → h ∈ (playAudio t r u).released) ∧
    (∀ (t : String) (r : Bool) (u : AudioState) (h : Nat),
        u.ctx = some h → h ∈ (playAudio t r u).released) ∧
    ((playAudio B true (playAudio A rA s)).src
        = some ((playAudio A rA s).fresh + 1)
      ∧ (playAudio A rA s).fresh + 1
          ∉ (playAudio B true (playAudio A rA s)).released) ∧
    (∀ h, (playAudio A rA s).src = some h →
        h ∈ (playAudio B true (playAudio A rA s)).released
          ∧ (playAudio B true (playAudio A rA s)).src ≠ some h) := by
  have hwf1 : audioWF (playAudio A rA s) := audioWF_playAudio A rA s hwf
  obtain ⟨hsrc1, hctx1, hrel1⟩ := hwf1
  obtain ⟨hBsrc, hBctx, hBfresh, hBrel⟩ :=
    playAudio_success_fields B (playAudio A rA s) hB1 hB2
  refine ⟨playAudio_releases_src, playAudio_releases_ctx, ⟨hBsrc, ?_⟩, ?_⟩
  · intro hmem
    rw [hBrel] at hmem
    have hwf2 := audioWF_stopAudio (playAudio A rA s) ⟨hsrc1, hctx1, hrel1⟩
    have := hwf2.2.2 _ hmem
    simp only [stopAudio] at this
    omega
  · intro h hs1
    refine ⟨playAudio_releases_src B true (playAudio A rA s) h hs1, ?_⟩
    rw [hBsrc]
    have hlt : h < (playAudio A rA s).fresh := by
      apply hsrc1
      simp [hs1]
    intro hcontra
    have : (playAudio A rA s).fresh + 1 = h := Option.some.inj hcontra
    omega

/-- Witness for C8 at a concrete pair of play calls from an idle state. -/
theorem playAudio_single_slot_witness :
    audioWF audioState0' ∧
    cleanTextForTTS ("hello") ≠ "" ∧
    ¬((cleanTextForTTS ("hello")).length < 3
        ∧ containsKannadaChar (cleanTextForTTS ("hello")) = false) ∧
    ((playAudio ("hello") true (playAudio ("hi") true audioState0')).src
        = some ((playAudio ("hi") true audioState0').fresh + 1)
      ∧ (playAudio ("hi") true audioState0').fresh + 1
          ∉ (playAudio ("hello") true (playAudio ("hi") true audioState0')).released) :=
  ⟨by unfold audioWF; decide, by decide, by decide,
    (playAudio_single_slot audioState0' ("hi") ("hello") true
      (by unfold audioWF; decide) (by decide) (by decide)).2.2.1⟩

/-- Claim C2 (amended): when the chat inference request fails, the
request helper substitutes the canned fallback payload, so the
orchestrator appends exactly one model Message carrying the fallback
reply and empty vocabulary (after the user Message), leaves the word
bank and progress ledger unchanged, and clears the processing flag. -/
theorem chatFailure_appends_fallback (s : SessionState) (transcript : String)
    (now : Nat) (synthOk : Bool) (h : jsTrim transcript ≠ "") :
    ((handleVoiceResult transcript now (Except.error ()) synthOk s).chat.messages
      = s.chat.messages
        ++ [{ id := toString now, role := Role.user, text := transcript
              vocabulary := none, translation := none },
            { id := toString (now + 1), role := Role.model
              text := chatFallback.reply
              vocabulary := some chatFallback.vocabulary
              translation := some chatFallback.translation }]) ∧
    (handleVoiceResult transcript now (Except.error ()) synthOk s).app = s.app ∧
    (handleVoiceResult transcript now (Except.error ()) synthOk s).chat.isProcessing
      = false := by
  unfold handleVoiceResult
  rw [if_neg h]
  refine ⟨?_, ?_, rfl⟩
  · simp [chatWithTutor]
  · simp [chatWithTutor, chatFallback]

/-- The chat view's empty starting state for concrete runs. -/
def chatState0 : ChatState :=
  { messages := [], isProcessing := false }

/-- A concrete whole-session state. -/
def sessionState0 : SessionState :=
  { app := initialAppState, chat := chatState0, audio := audioState0' }

/-- Counterexample to claim C2 as stated: on chat request failure the
orchestrator does append a model Message (the canned apology), so the
transcript's model-message count grows from zero to one. -/
theorem chatFailure_counterexample :
    (sessionState0.chat.messages.countP (fun m => decide (m.role = Role.model))) = 0
      ∧ ((handleVoiceResult ("hi") 0 (Except.error ()) true
            sessionState0).chat.messages.countP
              (fun m => decide (m.role = Role.model))) = 1 := by decide

/-- Witness for C2 at a concrete transcript and starting state. -/
theorem chatFailure_appends_fallback_witness :
    jsTrim ("hi") ≠ "" ∧
    (((handleVoiceResult ("hi") 0 (Except.error ()) true sessionState0).chat.messages
      = sessionState0.chat.messages
        ++ [{ id := toString 0, role := Role.user, text := "hi"
              vocabulary := none, translation := none },
            { id := toString (0 + 1), role := Role.model
              text := chatFallback.reply
              vocabulary := some chatFallback.vocabulary
              translation := some chatFallback.translation }]) ∧
     (handleVoiceResult ("hi") 0 (Except.error ()) true sessionState0).app
        = sessionState0.app ∧
     (handleVoiceResult ("hi") 0 (Except.error ()) true sessionState0).chat.isProcessing
        = false) :=
  ⟨by decide,
    chatFailure_appends_fallback sessionState0 ("hi") 0 true (by decide)⟩

/-- Claim C9: answer validation returns true locally (without issuing the
remote call) whenever the lowercased user answer contains the lowercased
expected answer as a substring, and when the local check fails and the
remote semantic-equivalence request fails it returns false (having
consulted the remote). -/
theorem validateAnswer_local_then_remote (u c : String)
    (remote : Except Unit (Option String)) :
    (listContains (lowerStr u) (lowerStr c) = true →
      validateAnswer u c remote = (true, false)) ∧
    (listContains (lowerStr u) (lowerStr c) = false →
      validateAnswer u c (Except.error ()) = (false, true)) := by
  constructor
  · intro h
    simp [validateAnswer, h]
  · intro h
    simp [validateAnswer, h]

/-- Witness for C9: the identical Kannada answer passes the local check
with no remote call, and a mismatched answer under remote failure is
rejected after consulting the remote. -/
theorem validateAnswer_local_then_remote_witness :
    listContains (lowerStr ("ಹೌದು")) (lowerStr ("ಹೌದು")) = true ∧
    validateAnswer ("ಹೌದು") ("ಹೌದು") (Except.error ()) = (true, false) ∧
    listContains (lowerStr ("a")) (lowerStr ("b")) = false ∧
    validateAnswer ("a") ("b") (Except.error ()) = (false, true) :=
  ⟨by decide,
    (validateAnswer_local_then_remote ("ಹೌದು") ("ಹೌದು") (Except.error ())).1 (by decide),
    by decide,
    (validateAnswer_local_then_remote ("a") ("b") (Except.error ())).2 (by decide)⟩

/-- Claim C10: the voice capture controller's transitions are
no-op-guarded.  A start request while already listening leaves the
controller state unchanged; a stop request while idle (not listening,
engine stopped) leaves the controller state unchanged; and a start
request while an engine session is already active never begins a second
engine session, so at most one listening session is active at a time.
All three transitions are total functions (errors are swallowed). -/
theorem voiceControl_guards (v : VoiceState) (a : AudioState)
    (hl : v.isListening = true) (v2 : VoiceState)
    (h2 : v2.isListening = false) (h3 : v2.engineStarted = false) :
    (startListening v a).1 = v ∧
    stopListening v2 = v2 ∧
    (∀ (w : VoiceState) (b : AudioState), w.engineStarted = true →
      ((startListening w b).1.startCalls = w.startCalls
        ∧ (startListening w b).1.engineStarted = true)) := by
  refine ⟨?_, ?_, ?_⟩
  · unfold startListening
    dsimp only
    split
    · rfl
    · rfl
  · unfold stopListening
    split
    · cases v2
      simp_all
    · rfl
  · intro w b hw
    unfold startListening
    dsimp only
    split
    · split
      · exact ⟨rfl, hw⟩
      · exact ⟨rfl, hw⟩
    · exact ⟨rfl, hw⟩

/-- Witness for C10 at concrete controller states. -/
theorem voiceControl_guards_witness :
    ({ isListening := true, hasRecognizer := true, engineStarted := true
       startCalls := 1 : VoiceState }.isListening = true) ∧
    ({ isListening := false, hasRecognizer := true, engineStarted := false
       startCalls := 0 : VoiceState }.isListening = false) ∧
    ({ isListening := false, hasRecognizer := true, engineStarted := false
       startCalls := 0 : VoiceState }.engineStarted = false) ∧
    ((startListening
        { isListening := true, hasRecognizer := true, engineStarted := true
          startCalls := 1 } audioState0').1
      = { isListening := true, hasRecognizer := true, engineStarted := true
          startCalls := 1 }) ∧
    (stopListening
        { isListening := false, hasRecognizer := true, engineStarted := false
          startCalls := 0 }
      = { isListening := false, hasRecognizer := true, engineStarted := false
          startCalls := 0 }) :=
  ⟨rfl, rfl, rfl,
    (voiceControl_guards
      { isListening := true, hasRecognizer := true, engineStarted := true
        startCalls := 1 } audioState0' rfl
      { isListening := false, hasRecognizer := true, engineStarted := false
        startCalls := 0 } rfl rfl).1,
    (voiceControl_guards
      { isListening := true, hasRecognizer := true, engineStarted := true
        startCalls := 1 } audioState0' rfl
      { isListening := false, hasRecognizer := true, engineStarted := false
        startCalls := 0 } rfl rfl).2.1⟩
